import Mathlib

/-!
Shallow embedding of the `ermadhav/ems` employee-management server core:
the Express route handlers in `server/routes.ts`, the auth middleware in
`server/middleware/auth.ts`, the storage layer `server/storage.ts`, and the
Drizzle table schema in `shared/schema.ts`.

Modelling conventions:
* Timestamps are integer milliseconds since the epoch (`Millis := Int`),
  matching JavaScript `Date.getTime()`.  The server's local timezone is
  modelled as UTC, so `setHours(0,0,0,0)` becomes flooring to a multiple of
  86 400 000 ms.
* JavaScript numbers appearing in the arithmetic the handlers perform are
  modelled as exact rationals (`ℚ`); `Math.round` / `Math.ceil` become
  `Int.floor (q + 1/2)` / `Int.ceil q`.
* The database is a `Store` of in-order lists of rows; a Drizzle
  `select ... where` returning `[row]` is `List.find?`, `update ... returning`
  maps the matching rows and returns the first pre-image's update.
  Row ids generated by `gen_random_uuid()` are passed in as explicit
  `freshId` arguments (external nondeterminism).
* External collaborators: bcrypt comparison is an arbitrary function
  parameter `cmp`; `bcrypt.hash` is modelled as an injective tagging
  function `hashPassword`; `jwt.sign` is modelled as an opaque serialization
  of exactly the claims the code signs ({id, email, role}).
* Route handlers are modelled after request-body schema validation (zod)
  succeeded; the zod schemas in `shared/schema.ts` constrain field types
  and enumerations, which the Lean request structures encode, but perform
  no cross-field checks (in particular no date-range check).
-/

namespace EMS

/-- Milliseconds since the Unix epoch, as in JavaScript `Date.getTime()`. -/
abbrev Millis := Int

/-- Milliseconds in one day. -/
def dayMs : Int := 86400000

/-- `new Date(t); d.setHours(0,0,0,0)` — start of the calendar day containing
`t` (server local time modelled as UTC). -/
def startOfDay (t : Millis) : Millis := dayMs * (Int.fdiv t dayMs)

/-- `d.setHours(23,59,59,999)` — last millisecond of the calendar day. -/
def endOfDay (t : Millis) : Millis := startOfDay t + (dayMs - 1)

/-- JavaScript `Math.round` on an exact rational: round half toward +∞. -/
def jsRound (q : ℚ) : Int := ⌊q + 1 / 2⌋

/-- JavaScript `Math.ceil` on an exact rational. -/
def jsCeil (q : ℚ) : Int := ⌈q⌉

/-- Modelled from the spec words for check-out: the elapsed hours
"rounded to one decimal place (half-up rounding on the tenths digit)". -/
def roundHalfUpTenths (x : ℚ) : ℚ := (⌊x * 10 + 1 / 2⌋ : ℚ) / 10

/-- `bcrypt.hash(password, 10)` — external collaborator, modelled as an
injective tagging function (the claims only need that a hashed value is
distinguishable from the plaintext it came from). -/
def hashPassword (password : String) : String := "bcrypt$" ++ password

/-- A JSON-like value, the shape of HTTP response bodies. -/
inductive JVal where
  | s (v : String)
  | i (v : Int)
  | q (v : ℚ)
  | b (v : Bool)
  | null
  | obj (fields : List (String × JVal))
  | arr (elems : List JVal)

/-- An HTTP response: status code plus JSON body. -/
structure Resp where
  status : Nat
  body : JVal

/-- The `employees` table row (`shared/schema.ts`). -/
structure Employee where
  id : String
  email : String
  password : String
  firstName : String
  lastName : String
  department : String
  position : String
  role : String
  leaveBalance : Int
  isActive : Bool
  createdAt : Millis
  updatedAt : Millis
deriving DecidableEq, Repr

/-- The `attendance` table row (`shared/schema.ts`).  `hours_worked` is
declared `integer("hours_worked").default(0)`, so the stored value is an
integer — the fractional value the checkout handler computes cannot live
in this column (see `checkOut`). -/
structure Attendance where
  id : String
  employeeId : String
  date : Millis
  checkInTime : Option Millis
  checkOutTime : Option Millis
  hoursWorked : Option Int
  status : String
  createdAt : Millis
deriving DecidableEq, Repr

/-- The `leave_requests` table row (`shared/schema.ts`). -/
structure LeaveRequest where
  id : String
  employeeId : String
  leaveType : String
  startDate : Millis
  endDate : Millis
  reason : Option String
  status : String
  reviewedBy : Option String
  reviewedAt : Option Millis
  reviewComments : Option String
  daysRequested : Int
  createdAt : Millis
  updatedAt : Millis
deriving DecidableEq, Repr

/-- The database state: the three tables, rows in insertion order. -/
structure Store where
  employees : List Employee
  attendance : List Attendance
  leaveRequests : List LeaveRequest
deriving DecidableEq, Repr

/-- The JWT claims carried by a verified bearer token (`jwt.sign` payload in
`middleware/auth.ts`). -/
structure IdentityClaims where
  id : String
  email : String
  role : String
deriving DecidableEq, Repr

/-- `jwt.sign({id, email, role}, ...)` — opaque serialization of the claims. -/
def generateToken (e : Employee) : String :=
  e.id ++ "." ++ e.email ++ "." ++ e.role

/-- An employee row as the JS object the server serializes (key order =
column order in the Drizzle table definition). -/
def employeeFields (e : Employee) : List (String × JVal) :=
  [("id", .s e.id), ("email", .s e.email), ("password", .s e.password),
   ("firstName", .s e.firstName), ("lastName", .s e.lastName),
   ("department", .s e.department), ("position", .s e.position),
   ("role", .s e.role), ("leaveBalance", .i e.leaveBalance),
   ("isActive", .b e.isActive), ("createdAt", .i e.createdAt),
   ("updatedAt", .i e.updatedAt)]

/-- `const { password: _, ...rest } = obj` — object rest-destructuring that
drops the `password` key. -/
def omitPassword (fields : List (String × JVal)) : List (String × JVal) :=
  fields.filter (fun kv => kv.1 != "password")

/-- An attendance row serialized as a JS object. -/
def attendanceFields (a : Attendance) : List (String × JVal) :=
  [("id", .s a.id), ("employeeId", .s a.employeeId), ("date", .i a.date),
   ("checkInTime", (a.checkInTime.map JVal.i).getD .null),
   ("checkOutTime", (a.checkOutTime.map JVal.i).getD .null),
   ("hoursWorked", (a.hoursWorked.map JVal.i).getD .null),
   ("status", .s a.status), ("createdAt", .i a.createdAt)]

/-- A leave-request row serialized as a JS object. -/
def leaveRequestFields (lr : LeaveRequest) : List (String × JVal) :=
  [("id", .s lr.id), ("employeeId", .s lr.employeeId),
   ("leaveType", .s lr.leaveType), ("startDate", .i lr.startDate),
   ("endDate", .i lr.endDate), ("reason", (lr.reason.map JVal.s).getD .null),
   ("status", .s lr.status),
   ("reviewedBy", (lr.reviewedBy.map JVal.s).getD .null),
   ("reviewedAt", (lr.reviewedAt.map JVal.i).getD .null),
   ("reviewComments", (lr.reviewComments.map JVal.s).getD .null),
   ("daysRequested", .i lr.daysRequested), ("createdAt", .i lr.createdAt),
   ("updatedAt", .i lr.updatedAt)]

/-! ### Storage layer (`server/storage.ts`, class `DatabaseStorage`) -/

/-- `getEmployeeByEmail`: `select from employees where email = e`, first row. -/
def getEmployeeByEmail (st : Store) (email : String) : Option Employee :=
  st.employees.find? (fun e => e.email == email)

/-- `getEmployee`: `select from employees where id = i`, first row. -/
def getEmployee (st : Store) (id : String) : Option Employee :=
  st.employees.find? (fun e => e.id == id)

/-- `getAllEmployees`: `select from employees where isActive = true`. -/
def getAllEmployees (st : Store) : List Employee :=
  st.employees.filter (fun e => e.isActive)

/-- `Partial<InsertEmployee>` as it reaches `updateEmployee` at runtime: an
open bag of employee-column fields, each optionally supplied (the PUT route
passes `req.body` through with no field allow-list). -/
structure EmployeeUpdate where
  id : Option String := none
  email : Option String := none
  password : Option String := none
  firstName : Option String := none
  lastName : Option String := none
  department : Option String := none
  position : Option String := none
  role : Option String := none
  leaveBalance : Option Int := none
  isActive : Option Bool := none
  createdAt : Option Millis := none
  updatedAt : Option Millis := none
deriving DecidableEq, Repr

/-- The effect of `set({...employee, updatedAt: new Date()})` on one row:
every supplied field overwrites the column, and `updatedAt` is then
unconditionally overwritten with `now`. -/
def applyEmployeeUpd (u : EmployeeUpdate) (now : Millis) (e : Employee) : Employee :=
  { id := u.id.getD e.id,
    email := u.email.getD e.email,
    password := u.password.getD e.password,
    firstName := u.firstName.getD e.firstName,
    lastName := u.lastName.getD e.lastName,
    department := u.department.getD e.department,
    position := u.position.getD e.position,
    role := u.role.getD e.role,
    leaveBalance := u.leaveBalance.getD e.leaveBalance,
    isActive := u.isActive.getD e.isActive,
    createdAt := u.createdAt.getD e.createdAt,
    updatedAt := now }

/-- `updateEmployee`: `update employees set {...u, updatedAt: now} where id
= i returning`, first returned row. -/
def updateEmployee (st : Store) (id : String) (u : EmployeeUpdate) (now : Millis) :
    Store × Option Employee :=
  ({ st with
      employees :=
        st.employees.map (fun e => if e.id = id then applyEmployeeUpd u now e else e) },
   (st.employees.find? (fun e => e.id == id)).map (applyEmployeeUpd u now))

/-- `getEmployeeAttendance`: the first attendance row of the employee whose
`date` falls inside the calendar day of `date` (between `setHours(0,0,0,0)`
and `setHours(23,59,59,999)` of the target date). -/
def getEmployeeAttendance (st : Store) (employeeId : String) (date : Millis) :
    Option Attendance :=
  st.attendance.find? (fun a =>
    a.employeeId == employeeId
      && decide (startOfDay date ≤ a.date)
      && decide (a.date ≤ endOfDay date))

/-- `Partial<Attendance>` as accepted by `updateAttendance`. -/
structure AttendanceUpd where
  id : Option String := none
  employeeId : Option String := none
  date : Option Millis := none
  checkInTime : Option (Option Millis) := none
  checkOutTime : Option (Option Millis) := none
  hoursWorked : Option (Option Int) := none
  status : Option String := none
  createdAt : Option Millis := none
deriving DecidableEq, Repr

/-- Field-wise overwrite of one attendance row with the supplied fields. -/
def applyAttendanceUpd (u : AttendanceUpd) (a : Attendance) : Attendance :=
  { id := u.id.getD a.id,
    employeeId := u.employeeId.getD a.employeeId,
    date := u.date.getD a.date,
    checkInTime := u.checkInTime.getD a.checkInTime,
    checkOutTime := u.checkOutTime.getD a.checkOutTime,
    hoursWorked := u.hoursWorked.getD a.hoursWorked,
    status := u.status.getD a.status,
    createdAt := u.createdAt.getD a.createdAt }

/-- `updateAttendance`: `update attendance set u where id = i returning`,
first returned row. -/
def updateAttendance (st : Store) (id : String) (u : AttendanceUpd) :
    Store × Option Attendance :=
  ({ st with
      attendance :=
        st.attendance.map (fun a => if a.id = id then applyAttendanceUpd u a else a) },
   (st.attendance.find? (fun a => a.id == id)).map (applyAttendanceUpd u))

/-- `updateLeaveStatusSchema.parse(req.body)` output: `status ∈ {approved,
rejected}` and optional `reviewComments` (key absent when not supplied, so an
absent key leaves the stored column untouched). -/
structure LeaveStatusUpdate where
  status : String
  reviewComments : Option String := none
deriving DecidableEq, Repr

/-- The effect of `set({...statusUpdate, reviewedBy, reviewedAt: now,
updatedAt: now})` on one leave-request row.  Note: no check of the row's
current status — the update applies whatever the row's state. -/
def applyLeaveStatusUpd (upd : LeaveStatusUpdate) (reviewedBy : String)
    (now : Millis) (lr : LeaveRequest) : LeaveRequest :=
  { lr with
      status := upd.status,
      reviewComments :=
        match upd.reviewComments with
        | some c => some c
        | none => lr.reviewComments,
      reviewedBy := some reviewedBy,
      reviewedAt := some now,
      updatedAt := now }

/-- `updateLeaveRequestStatus`: unconditional `update leave_requests set ...
where id = i returning`, first returned row (`none` when no row matched). -/
def updateLeaveRequestStatus (st : Store) (id : String) (upd : LeaveStatusUpdate)
    (reviewedBy : String) (now : Millis) : Store × Option LeaveRequest :=
  ({ st with
      leaveRequests :=
        st.leaveRequests.map
          (fun lr => if lr.id = id then applyLeaveStatusUpd upd reviewedBy now lr else lr) },
   (st.leaveRequests.find? (fun lr => lr.id == id)).map
     (applyLeaveStatusUpd upd reviewedBy now))

/-! ### Auth middleware (`server/middleware/auth.ts`) -/

/-- Outcome of an Express middleware: pass control on, or answer and stop. -/
inductive GuardResult where
  | proceed
  | halt (status : Nat) (message : String)
deriving DecidableEq, Repr

/-- `requireRole(roles)`: 401 when no authenticated user is attached to the
request, 403 when the user's role is not in the required list. -/
def requireRole (roles : List String) (user : Option IdentityClaims) : GuardResult :=
  match user with
  | none => .halt 401 "Authentication required"
  | some u =>
      if roles.contains u.role then .proceed
      else .halt 403 "Insufficient permissions"

/-- The admin-only routes of `server/routes.ts` and the role list each one
passes to `requireRole`. -/
def adminOnlyRoutes : List (String × List String) :=
  [("GET /api/employees", ["admin"]),
   ("POST /api/employees", ["admin"]),
   ("PUT /api/employees/:id", ["admin"]),
   ("DELETE /api/employees/:id", ["admin"]),
   ("GET /api/attendance/today", ["admin"]),
   ("GET /api/leave-requests/pending", ["admin"]),
   ("PUT /api/leave-requests/:id/status", ["admin"]),
   ("GET /api/dashboard/stats", ["admin"])]

/-! ### Route handlers (`server/routes.ts`), after schema validation -/

/-- The 401 body both login failure paths produce. -/
def invalidCredentialsResp : Resp :=
  ⟨401, .obj [("message", .s "Invalid credentials")]⟩

/-- `POST /api/auth/login` after `loginSchema.parse` succeeded.  `cmp` is the
external bcrypt comparison `comparePassword(plaintext, storedHash)`. -/
def login (st : Store) (cmp : String → String → Bool) (email password : String) :
    Resp :=
  match getEmployeeByEmail st email with
  | none => invalidCredentialsResp
  | some employee =>
      if cmp password employee.password then
        ⟨200, .obj [("token", .s (generateToken employee)),
                    ("employee", .obj (omitPassword (employeeFields employee)))]⟩
      else invalidCredentialsResp

/-- `GET /api/auth/me`: look the caller up by the id in their token claims. -/
def authMe (st : Store) (claims : IdentityClaims) : Resp :=
  match getEmployee st claims.id with
  | none => ⟨404, .obj [("message", .s "Employee not found")]⟩
  | some employee => ⟨200, .obj (omitPassword (employeeFields employee))⟩

/-- `GET /api/employees`: all active employees, passwords stripped. -/
def getEmployeesRoute (st : Store) : Resp :=
  ⟨200, .arr ((getAllEmployees st).map
      (fun e => .obj (omitPassword (employeeFields e))))⟩

/-- `insertEmployeeSchema.parse(req.body)` output: the employee columns minus
id/createdAt/updatedAt; columns with schema defaults are optional. -/
structure InsertEmployee where
  email : String
  password : String
  firstName : String
  lastName : String
  department : String
  position : String
  role : Option String := none
  leaveBalance : Option Int := none
  isActive : Option Bool := none
deriving DecidableEq, Repr

/-- `POST /api/employees`: hash the password, insert (column defaults fill
role/leaveBalance/isActive/createdAt; `createEmployee` sets `updatedAt`),
respond 201 with the password stripped. -/
def postEmployee (st : Store) (data : InsertEmployee) (now : Millis)
    (freshId : String) : Store × Resp :=
  let employee : Employee :=
    { id := freshId, email := data.email,
      password := hashPassword data.password,
      firstName := data.firstName, lastName := data.lastName,
      department := data.department, position := data.position,
      role := data.role.getD "employee",
      leaveBalance := data.leaveBalance.getD 20,
      isActive := data.isActive.getD true,
      createdAt := now, updatedAt := now }
  ({ st with employees := st.employees ++ [employee] },
   ⟨201, .obj (omitPassword (employeeFields employee))⟩)

/-- The `if (updateData.password) updateData.password = await hashPassword(...)`
step of `PUT /api/employees/:id`: a truthy (present, non-empty) password is
replaced by its hash; an empty-string password is falsy and left verbatim. -/
def hashBodyPassword (body : EmployeeUpdate) : EmployeeUpdate :=
  match body.password with
  | some p => if p = "" then body else { body with password := some (hashPassword p) }
  | none => body

/-- `PUT /api/employees/:id`: `req.body` is merged into the stored row with
no field allow-list or schema validation (`updateData = req.body`). -/
def putEmployee (st : Store) (id : String) (body : EmployeeUpdate) (now : Millis) :
    Store × Resp :=
  let result := updateEmployee st id (hashBodyPassword body) now
  match result.2 with
  | none => (result.1, ⟨404, .obj [("message", .s "Employee not found")]⟩)
  | some employee =>
      (result.1, ⟨200, .obj (omitPassword (employeeFields employee))⟩)

/-- `DELETE /api/employees/:id` (FK cascade removes owned attendance and
leave-request rows). -/
def deleteEmployeeRoute (st : Store) (id : String) : Store × Resp :=
  let found := st.employees.any (fun e => e.id == id)
  let st2 : Store :=
    { employees := st.employees.filter (fun e => !(e.id == id)),
      attendance := st.attendance.filter (fun a => !(a.employeeId == id)),
      leaveRequests := st.leaveRequests.filter (fun lr => !(lr.employeeId == id)) }
  if found then (st2, ⟨200, .obj [("message", .s "Employee deleted successfully")]⟩)
  else (st2, ⟨404, .obj [("message", .s "Employee not found")]⟩)

/-- `POST /api/attendance/checkin`: reject when a record for (employee,
today) already exists — whatever its checked-out state; otherwise insert a
row with check-in = now, status = present (`hoursWorked` takes the column
default 0, `checkOutTime` the default null, `createdAt` defaults to now). -/
def checkIn (st : Store) (employeeId : String) (now : Millis) (freshId : String) :
    Store × Resp :=
  match getEmployeeAttendance st employeeId now with
  | some _ => (st, ⟨400, .obj [("message", .s "Already checked in today")]⟩)
  | none =>
      let att : Attendance :=
        { id := freshId, employeeId := employeeId, date := now,
          checkInTime := some now, checkOutTime := none,
          hoursWorked := some 0, status := "present", createdAt := now }
      ({ st with attendance := st.attendance ++ [att] },
       ⟨201, .obj (attendanceFields att)⟩)

/-- The hours value the checkout handler computes:
`existing.checkInTime ? Math.round((now − checkIn)/(1000*60*60)*10)/10 : 0`. -/
def checkOutHours (now : Millis) (checkInTime : Option Millis) : ℚ :=
  match checkInTime with
  | some cin => (jsRound (((now - cin : Int) : ℚ) / (1000 * 60 * 60) * 10) : ℚ) / 10
  | none => 0

/-- `POST /api/attendance/checkout`: 400 when no record exists for today;
400 when today's record already has a check-out time.  Otherwise the route
computes hoursWorked = `Math.round((out-in)/(1000*60*60)*10)/10` and calls
`storage.updateAttendance`.  The `hours_worked` column is `integer`
(`shared/schema.ts`): node-postgres serializes the JS number via
`toString`, and Postgres rejects a numeral with a fractional part as int4
input — so when the rounded value is not a whole number the UPDATE throws,
nothing is written (not even `checkOutTime`), and the route's catch
answers 500 Internal server error; a whole-number value is serialized
without a fractional part and is stored. -/
def checkOut (st : Store) (employeeId : String) (now : Millis) : Store × Resp :=
  match getEmployeeAttendance st employeeId now with
  | none => (st, ⟨400, .obj [("message", .s "No check-in found for today")]⟩)
  | some existing =>
      if existing.checkOutTime.isSome then
        (st, ⟨400, .obj [("message", .s "Already checked out today")]⟩)
      else if (checkOutHours now existing.checkInTime).den = 1 then
        let result := updateAttendance st existing.id
          { checkOutTime := some (some now),
            hoursWorked := some (some (checkOutHours now existing.checkInTime).num) }
        (result.1,
         ⟨200, (result.2.map (fun a => JVal.obj (attendanceFields a))).getD .null⟩)
      else (st, ⟨500, .obj [("message", .s "Internal server error")]⟩)

/-- `insertLeaveRequestSchema.parse({...req.body, employeeId})` output: the
leave-request columns minus id/createdAt/updatedAt/reviewedBy/reviewedAt/
reviewComments; `status` has a column default so it is optional.  No
relation between `startDate` and `endDate` is validated. -/
structure LeaveSubmission where
  employeeId : String
  leaveType : String
  startDate : Millis
  endDate : Millis
  reason : Option String := none
  status : Option String := none
deriving DecidableEq, Repr

/-- `POST /api/leave-requests`: compute
`daysRequested = Math.ceil((end-start)/(1000*60*60*24)) + 1` and insert; no
date-range check is performed. -/
def submitLeaveRequest (st : Store) (data : LeaveSubmission) (now : Millis)
    (freshId : String) : Store × Resp :=
  let daysRequested : Int :=
    jsCeil (((data.endDate - data.startDate : Int) : ℚ) / (1000 * 60 * 60 * 24)) + 1
  let lr : LeaveRequest :=
    { id := freshId, employeeId := data.employeeId, leaveType := data.leaveType,
      startDate := data.startDate, endDate := data.endDate, reason := data.reason,
      status := data.status.getD "pending", reviewedBy := none, reviewedAt := none,
      reviewComments := none, daysRequested := daysRequested,
      createdAt := now, updatedAt := now }
  ({ st with leaveRequests := st.leaveRequests ++ [lr] },
   ⟨201, .obj (leaveRequestFields lr)⟩)

/-- `PUT /api/leave-requests/:id/status`: run the unconditional status
update; 404 only when no row matched the id. -/
def decideLeave (st : Store) (id : String) (upd : LeaveStatusUpdate)
    (reviewerId : String) (now : Millis) : Store × Resp :=
  let result := updateLeaveRequestStatus st id upd reviewerId now
  match result.2 with
  | none => (result.1, ⟨404, .obj [("message", .s "Leave request not found")]⟩)
  | some lr => (result.1, ⟨200, .obj (leaveRequestFields lr)⟩)

/-! ### Shared helper lemmas and concrete fixtures -/

/-- An empty database. -/
def emptyStore : Store := ⟨[], [], []⟩

/-- `find?` commutes with mapping a function that does not change the
predicate's verdict. -/
theorem find?_map_of_pred_eq {α : Type} (f : α → α) (p : α → Bool)
    (h : ∀ a, p (f a) = p a) (l : List α) :
    (l.map f).find? p = (l.find? p).map f := by
  induction l with
  | nil => rfl
  | cons a t ih =>
    by_cases hp : p a = true
    · rw [List.map_cons, List.find?_cons_of_pos _ ((h a).trans hp),
        List.find?_cons_of_pos _ hp, Option.map_some']
    · have hpa : ¬ p (f a) = true := by rw [h a]; exact hp
      rw [List.map_cons, List.find?_cons_of_neg _ hpa, List.find?_cons_of_neg _ hp, ih]

/-- Mapping a conditional rewrite over a list in which nothing matches the
condition leaves the list unchanged. -/
theorem map_ite_eq_self {α : Type} (g : α → α) (q : α → Prop) [DecidablePred q]
    (l : List α) (h : ∀ a ∈ l, ¬ q a) :
    l.map (fun a => if q a then g a else a) = l := by
  induction l with
  | nil => rfl
  | cons a t ih =>
    rw [List.map_cons, if_neg (h a (List.mem_cons_self a t)),
      ih (fun x hx => h x (List.mem_cons_of_mem a hx))]

/-- Every instant lies between the start and the end of its own day. -/
theorem mem_own_day (t : Millis) : startOfDay t ≤ t ∧ t ≤ endOfDay t := by
  have key : ∀ s : Int, 86400000 * (s / 86400000) ≤ s ∧
      s ≤ 86400000 * (s / 86400000) + (86400000 - 1) := fun s => ⟨by omega, by omega⟩
  have hfd : Int.fdiv t dayMs = t / dayMs := Int.fdiv_eq_ediv t (by simp [dayMs])
  unfold endOfDay startOfDay
  rw [hfd]
  simp only [dayMs]
  exact key t

/-- Claim C7 — Both login failure causes (unknown email, failed password
comparison) produce the identical observable response, `401 Invalid
credentials`, so a caller cannot tell whether the email exists. -/
theorem login_failure_modes_indistinguishable
    (st1 st2 : Store) (cmp1 cmp2 : String → String → Bool)
    (email1 pw1 email2 pw2 : String)
    (h1 : getEmployeeByEmail st1 email1 = none)
    (h2 : ∃ emp, getEmployeeByEmail st2 email2 = some emp ∧
          cmp2 pw2 emp.password = false) :
    login st1 cmp1 email1 pw1 = invalidCredentialsResp ∧
    login st2 cmp2 email2 pw2 = invalidCredentialsResp ∧
    login st1 cmp1 email1 pw1 = login st2 cmp2 email2 pw2 := by
  obtain ⟨emp, hfind, hcmp⟩ := h2
  have e1 : login st1 cmp1 email1 pw1 = invalidCredentialsResp := by
    unfold login; rw [h1]
  have e2 : login st2 cmp2 email2 pw2 = invalidCredentialsResp := by
    unfold login; rw [hfind]; simp [hcmp]
  exact ⟨e1, e2, e1.trans e2.symm⟩

/-- A registered employee fixture whose password comparison will fail. -/
def wrongPwEmployee : Employee :=
  { id := "e1", email := "a@b.c", password := "bcrypt$pw",
    firstName := "A", lastName := "B", department := "D", position := "P",
    role := "employee", leaveBalance := 20, isActive := true,
    createdAt := 0, updatedAt := 0 }

/-- Witness for C7: concrete unknown-email failure and concrete
wrong-password failure, equal responses. -/
theorem login_failure_modes_witness :
    login emptyStore (fun _ _ => true) "x@y.z" "secret1" = invalidCredentialsResp ∧
    login ⟨[wrongPwEmployee], [], []⟩ (fun _ _ => false) "a@b.c" "secret1" =
      invalidCredentialsResp ∧
    login emptyStore (fun _ _ => true) "x@y.z" "secret1" =
      login ⟨[wrongPwEmployee], [], []⟩ (fun _ _ => false) "a@b.c" "secret1" :=
  login_failure_modes_indistinguishable emptyStore ⟨[wrongPwEmployee], [], []⟩
    (fun _ _ => true) (fun _ _ => false) "x@y.z" "secret1" "a@b.c" "secret1"
    rfl ⟨wrongPwEmployee, rfl, rfl⟩

/-- Claim C8 — a caller whose role is outside the required role list is
refused with 403; a request with no authenticated user is refused with 401;
in particular an employee-role token is refused with 403 on every
admin-only route. -/
theorem role_authorization_enforced
    (roles : List String) (u : IdentityClaims) (h : u.role ∉ roles) :
    requireRole roles (some u) = GuardResult.halt 403 "Insufficient permissions" ∧
    requireRole roles none = GuardResult.halt 401 "Authentication required" ∧
    (∀ v : IdentityClaims, v.role = "employee" →
      ∀ p ∈ adminOnlyRoutes,
        requireRole p.2 (some v) = GuardResult.halt 403 "Insufficient permissions") := by
  refine ⟨?_, rfl, ?_⟩
  · simp [requireRole, h]
  · intro v hv p hp
    fin_cases hp <;> simp [requireRole, hv]

/-- Witness for C8: an employee-role claim against the admin-only role
list. -/
theorem role_authorization_witness :
    requireRole ["admin"] (some ⟨"u1", "u@x.y", "employee"⟩) =
      GuardResult.halt 403 "Insufficient permissions" ∧
    requireRole ["admin"] none = GuardResult.halt 401 "Authentication required" :=
  ⟨(role_authorization_enforced ["admin"] ⟨"u1", "u@x.y", "employee"⟩
      (by decide)).1,
   (role_authorization_enforced ["admin"] ⟨"u1", "u@x.y", "employee"⟩
      (by decide)).2.1⟩

/-- A submission whose end date precedes its start date by one day. -/
def badRangeSubmission : LeaveSubmission :=
  { employeeId := "e1", leaveType := "vacation", startDate := 86400000, endDate := 0 }

/-- Counterexample to claim C2 — submitting with endDate < startDate does
NOT fail with InvalidDateRange: the handler responds 201 and a leave
request is created. -/
theorem submit_reversed_range_counterexample :
    badRangeSubmission.endDate < badRangeSubmission.startDate ∧
    (submitLeaveRequest emptyStore badRangeSubmission 0 "lr1").2.status = 201 ∧
    (submitLeaveRequest emptyStore badRangeSubmission 0 "lr1").1.leaveRequests.length = 1 :=
  ⟨by decide, rfl, rfl⟩

/-- Claim C2 (amended) — the handler performs no date-range validation:
even when endDate < startDate the request is created in pending state with
`daysRequested = ceil((endDate − startDate)/day) + 1`, and the 201 success
response is returned. -/
theorem submit_no_range_validation
    (st : Store) (data : LeaveSubmission) (now : Millis) (freshId : String)
    (h : data.endDate < data.startDate) :
    (submitLeaveRequest st data now freshId).2.status = 201 ∧
    (submitLeaveRequest st data now freshId).1.leaveRequests =
      st.leaveRequests ++
        [{ id := freshId, employeeId := data.employeeId, leaveType := data.leaveType,
           startDate := data.startDate, endDate := data.endDate, reason := data.reason,
           status := data.status.getD "pending", reviewedBy := none, reviewedAt := none,
           reviewComments := none,
           daysRequested :=
             jsCeil (((data.endDate - data.startDate : Int) : ℚ) / (1000 * 60 * 60 * 24)) + 1,
           createdAt := now, updatedAt := now }] ∧
    jsCeil (((data.endDate - data.startDate : Int) : ℚ) / (1000 * 60 * 60 * 24)) + 1 ≤ 1 := by
  refine ⟨rfl, rfl, ?_⟩
  have hd : ((data.endDate - data.startDate : Int) : ℚ) ≤ 0 := by
    have h2 : (data.endDate - data.startDate : Int) ≤ 0 := sub_nonpos.mpr h.le
    exact_mod_cast h2
  have hq : ((data.endDate - data.startDate : Int) : ℚ) / (1000 * 60 * 60 * 24) ≤ 0 :=
    div_nonpos_of_nonpos_of_nonneg hd (by norm_num)
  have hceil : jsCeil (((data.endDate - data.startDate : Int) : ℚ) /
      (1000 * 60 * 60 * 24)) ≤ 0 :=
    Int.ceil_le.mpr (by exact_mod_cast hq)
  linarith

/-- Witness for C2 (amended): a concrete reversed-range submission is
accepted and stored. -/
theorem submit_no_range_validation_witness :
    (submitLeaveRequest emptyStore badRangeSubmission 5 "lr2").2.status = 201 ∧
    (submitLeaveRequest emptyStore badRangeSubmission 5 "lr2").1.leaveRequests =
      emptyStore.leaveRequests ++
        [{ id := "lr2", employeeId := "e1", leaveType := "vacation",
           startDate := 86400000, endDate := 0, reason := none,
           status := "pending", reviewedBy := none, reviewedAt := none,
           reviewComments := none,
           daysRequested :=
             jsCeil (((0 - 86400000 : Int) : ℚ) / (1000 * 60 * 60 * 24)) + 1,
           createdAt := 5, updatedAt := 5 }] ∧
    jsCeil (((0 - 86400000 : Int) : ℚ) / (1000 * 60 * 60 * 24)) + 1 ≤ 1 :=
  submit_no_range_validation emptyStore badRangeSubmission 5 "lr2" (by decide)

/-- A submission spanning half a day: start at midnight, end at noon the
same day. -/
def halfDaySubmission : LeaveSubmission :=
  { employeeId := "e1", leaveType := "sick", startDate := 0, endDate := 43200000 }

/-- Counterexample to claim C3 — with endDate ≥ startDate but a
non-whole-day difference (12 hours), the stored daysRequested is 2
(`Math.ceil`), while the claimed value floor((end−start) in days) + 1 is 1. -/
theorem daysRequested_not_floor_counterexample :
    halfDaySubmission.startDate ≤ halfDaySubmission.endDate ∧
    ((submitLeaveRequest emptyStore halfDaySubmission 0 "lr1").1.leaveRequests.map
        (fun lr => lr.daysRequested)) = [2] ∧
    ⌊((halfDaySubmission.endDate - halfDaySubmission.startDate : Int) : ℚ) /
        (1000 * 60 * 60 * 24)⌋ + 1 = 1 := by
  refine ⟨by decide, ?_, ?_⟩
  · show [jsCeil (((43200000 - 0 : Int) : ℚ) / (1000 * 60 * 60 * 24)) + 1] = [2]
    have hc : (⌈((43200000 - 0 : Int) : ℚ) / (1000 * 60 * 60 * 24)⌉ : Int) = 1 := by
      rw [Int.ceil_eq_iff]
      norm_num
    unfold jsCeil
    rw [hc]
    decide
  · show (⌊((43200000 - 0 : Int) : ℚ) / (1000 * 60 * 60 * 24)⌋ : Int) + 1 = 1
    have hf : (⌊((43200000 - 0 : Int) : ℚ) / (1000 * 60 * 60 * 24)⌋ : Int) = 0 := by
      rw [Int.floor_eq_iff]
      norm_num
    rw [hf]
    decide

/-- Claim C3 (amended) — the stored daysRequested is
`ceil((endDate − startDate)/day) + 1`; when the difference is a whole
number of days (in particular for midnight-aligned dates) this equals the
inclusive day count `floor((endDate − startDate)/day) + 1`. -/
theorem daysRequested_ceil_plus_one
    (st : Store) (data : LeaveSubmission) (now : Millis) (freshId : String)
    (h : data.startDate ≤ data.endDate) :
    ((submitLeaveRequest st data now freshId).1.leaveRequests.map
        (fun lr => lr.daysRequested)) =
      (st.leaveRequests.map (fun lr => lr.daysRequested)) ++
        [jsCeil (((data.endDate - data.startDate : Int) : ℚ) / (1000 * 60 * 60 * 24)) + 1] ∧
    ((dayMs ∣ (data.endDate - data.startDate)) →
      jsCeil (((data.endDate - data.startDate : Int) : ℚ) / (1000 * 60 * 60 * 24)) + 1 =
        ⌊((data.endDate - data.startDate : Int) : ℚ) / (1000 * 60 * 60 * 24)⌋ + 1) := by
  constructor
  · simp [submitLeaveRequest]
  · rintro ⟨k, hk⟩
    have hq : ((data.endDate - data.startDate : Int) : ℚ) / (1000 * 60 * 60 * 24) = (k : ℚ) := by
      rw [hk]
      have h1 : ((dayMs * k : Int) : ℚ) = 86400000 * (k : ℚ) := by
        push_cast [dayMs]
        ring
      rw [h1, show ((1000 : ℚ) * 60 * 60 * 24) = 86400000 from by norm_num]
      exact mul_div_cancel_left₀ _ (by norm_num)
    unfold jsCeil
    rw [hq, Int.ceil_intCast, Int.floor_intCast]

/-- The spec's worked example: 2024-01-10 through 2024-01-12 (UTC
midnights, as `new Date("2024-01-10")` parses). -/
def exampleSubmission : LeaveSubmission :=
  { employeeId := "e1", leaveType := "vacation",
    startDate := 1704844800000, endDate := 1705017600000 }

/-- Witness for C3 (amended): the worked example stores daysRequested = 3. -/
theorem daysRequested_ceil_plus_one_witness :
    ((submitLeaveRequest emptyStore exampleSubmission 0 "lr1").1.leaveRequests.map
        (fun lr => lr.daysRequested)) = [3] := by
  have h := daysRequested_ceil_plus_one emptyStore exampleSubmission 0 "lr1" (by decide)
  rw [h.1]
  show [jsCeil (((1705017600000 - 1704844800000 : Int) : ℚ) / (1000 * 60 * 60 * 24)) + 1] = [3]
  have hc : (⌈((1705017600000 - 1704844800000 : Int) : ℚ) / (1000 * 60 * 60 * 24)⌉ : Int) = 2 := by
    rw [Int.ceil_eq_iff]
    norm_num
  unfold jsCeil
  rw [hc]
  decide

/-- A leave request that has already been decided (approved by reviewer
a1). -/
def decidedRequest : LeaveRequest :=
  { id := "lr1", employeeId := "e1", leaveType := "vacation",
    startDate := 0, endDate := 86400000, reason := none, status := "approved",
    reviewedBy := some "a1", reviewedAt := some 100, reviewComments := some "ok",
    daysRequested := 2, createdAt := 0, updatedAt := 100 }

/-- A store holding only the already-approved request. -/
def decidedStore : Store := ⟨[], [], [decidedRequest]⟩

/-- Counterexample to claim C1 — deciding a request that is already
Approved does NOT fail with AlreadyDecided: the route responds 200 and
overwrites status, reviewer, review comments and the reviewed-at
timestamp. -/
theorem decide_already_decided_counterexample :
    decidedRequest.status = "approved" ∧
    (decideLeave decidedStore "lr1" { status := "rejected", reviewComments := some "no" }
        "a2" 200).2.status = 200 ∧
    (decideLeave decidedStore "lr1" { status := "rejected", reviewComments := some "no" }
        "a2" 200).1.leaveRequests =
      [{ decidedRequest with
          status := "rejected", reviewedBy := some "a2",
          reviewedAt := some 200, reviewComments := some "no", updatedAt := 200 }] :=
  ⟨rfl, rfl, by decide⟩

/-- Claim C1 (amended) — decide fails with NotFound (404) and leaves the
table unchanged when no request has the given id; when the request exists
it succeeds regardless of its current status: status, reviewer,
reviewed-at and updated-at (and review comments when supplied) are
overwritten by the new decision, even on an already-decided request. -/
theorem decideLeave_spec
    (st : Store) (id : String) (upd : LeaveStatusUpdate) (reviewerId : String)
    (now : Millis) :
    (st.leaveRequests.find? (fun lr => lr.id == id) = none →
      (decideLeave st id upd reviewerId now).2.status = 404 ∧
      (decideLeave st id upd reviewerId now).1.leaveRequests = st.leaveRequests) ∧
    (∀ r, st.leaveRequests.find? (fun lr => lr.id == id) = some r →
      (decideLeave st id upd reviewerId now).2 =
        ⟨200, .obj (leaveRequestFields (applyLeaveStatusUpd upd reviewerId now r))⟩ ∧
      (decideLeave st id upd reviewerId now).1.leaveRequests =
        st.leaveRequests.map
          (fun lr => if lr.id = id then applyLeaveStatusUpd upd reviewerId now lr else lr)) := by
  constructor
  · intro hnone
    have hall := List.find?_eq_none.mp hnone
    have hmap : st.leaveRequests.map
        (fun lr => if lr.id = id then applyLeaveStatusUpd upd reviewerId now lr else lr) =
        st.leaveRequests := by
      apply map_ite_eq_self
      intro a ha hid
      exact hall a ha (by simp [hid])
    constructor
    · simp [decideLeave, updateLeaveRequestStatus, hnone]
    · simp [decideLeave, updateLeaveRequestStatus, hnone, hmap]
  · intro r hr
    constructor
    · simp [decideLeave, updateLeaveRequestStatus, hr]
    · simp [decideLeave, updateLeaveRequestStatus, hr]

/-- Witness for C1 (amended): the concrete already-approved request is
overwritten by a fresh decision. -/
theorem decideLeave_spec_witness :
    (decideLeave decidedStore "lr1" { status := "approved", reviewComments := none }
        "a9" 300).2 =
      ⟨200, .obj (leaveRequestFields (applyLeaveStatusUpd
        { status := "approved", reviewComments := none } "a9" 300 decidedRequest))⟩ ∧
    (decideLeave decidedStore "lr1" { status := "approved", reviewComments := none }
        "a9" 300).1.leaveRequests =
      decidedStore.leaveRequests.map
        (fun lr => if lr.id = "lr1" then
          applyLeaveStatusUpd { status := "approved", reviewComments := none } "a9" 300 lr
          else lr) :=
  (decideLeave_spec decidedStore "lr1" { status := "approved", reviewComments := none }
    "a9" 300).2 decidedRequest rfl

/-- Looking an employee's attendance up at two instants of the same
calendar day gives the same result. -/
theorem getEmployeeAttendance_congr_day (s : Store) (employeeId : String)
    (d1 d2 : Millis) (h : startOfDay d1 = startOfDay d2) :
    getEmployeeAttendance s employeeId d1 = getEmployeeAttendance s employeeId d2 := by
  have hend : endOfDay d1 = endOfDay d2 := by unfold endOfDay; rw [h]
  unfold getEmployeeAttendance
  rw [h, hend]

/-- An attendance update that touches neither `employeeId` nor `date`
commutes with the per-day lookup. -/
theorem getEmployeeAttendance_update (st : Store) (rid : String) (u : AttendanceUpd)
    (hemp : u.employeeId = none) (hdate : u.date = none)
    (employeeId : String) (d : Millis) :
    getEmployeeAttendance (updateAttendance st rid u).1 employeeId d =
      (getEmployeeAttendance st employeeId d).map
        (fun a => if a.id = rid then applyAttendanceUpd u a else a) := by
  unfold getEmployeeAttendance updateAttendance
  exact find?_map_of_pred_eq _ _
    (fun a => by
      by_cases hid : a.id = rid
      · simp [hid, applyAttendanceUpd, hemp, hdate]
      · simp [hid])
    st.attendance

/-- Evaluation of `checkOut` when today's record exists and is already
checked out. -/
theorem checkOut_found_already_out (st : Store) (employeeId : String) (d : Millis)
    (a : Attendance) (h : getEmployeeAttendance st employeeId d = some a)
    (hsome : a.checkOutTime.isSome = true) :
    checkOut st employeeId d =
      (st, ⟨400, .obj [("message", .s "Already checked out today")]⟩) := by
  unfold checkOut
  rw [h]
  simp [hsome]

/-- Claim C4 — when an attendance record for (employee, today) already
exists — whatever its checked-out state — checkIn answers 400
AlreadyCheckedInToday and the store is unchanged; when none exists it
creates a record with check-in = now, status = present and hours-worked
0. -/
theorem checkIn_spec (st : Store) (employeeId : String) (now : Millis)
    (freshId : String) :
    (∀ r, getEmployeeAttendance st employeeId now = some r →
      checkIn st employeeId now freshId =
        (st, ⟨400, .obj [("message", .s "Already checked in today")]⟩)) ∧
    (getEmployeeAttendance st employeeId now = none →
      (checkIn st employeeId now freshId).2.status = 201 ∧
      (checkIn st employeeId now freshId).1 =
        { st with attendance := st.attendance ++
            [{ id := freshId, employeeId := employeeId, date := now,
               checkInTime := some now, checkOutTime := none,
               hoursWorked := some 0, status := "present", createdAt := now }] }) := by
  constructor
  · intro r hr
    unfold checkIn
    rw [hr]
  · intro hnone
    unfold checkIn
    rw [hnone]
    exact ⟨rfl, rfl⟩

/-- Witness for C4: checking in on an empty store creates the expected
record; a second same-instant check-in then fails and changes nothing. -/
theorem checkIn_spec_witness :
    (checkIn emptyStore "e1" 1000 "att1").2.status = 201 ∧
    (checkIn emptyStore "e1" 1000 "att1").1 =
      { emptyStore with attendance :=
          emptyStore.attendance ++
            [{ id := "att1", employeeId := "e1", date := 1000,
               checkInTime := some 1000, checkOutTime := none,
               hoursWorked := some 0, status := "present", createdAt := 1000 }] } ∧
    checkIn (checkIn emptyStore "e1" 1000 "att1").1 "e1" 2000 "att2" =
      ((checkIn emptyStore "e1" 1000 "att1").1,
       ⟨400, .obj [("message", .s "Already checked in today")]⟩) := by
  have h1 := (checkIn_spec emptyStore "e1" 1000 "att1").2 rfl
  have h2 := ((checkIn_spec (checkIn emptyStore "e1" 1000 "att1").1 "e1" 2000 "att2").1)
    { id := "att1", employeeId := "e1", date := 1000,
      checkInTime := some 1000, checkOutTime := none,
      hoursWorked := some 0, status := "present", createdAt := 1000 }
    (by rw [h1.2]; rfl)
  exact ⟨h1.1, h1.2, h2⟩

/-- Claim C5 (amended) — checkOut answers 400 NoCheckInFound when no
record exists for today and 400 AlreadyCheckedOutToday when today's record
already has a check-out time (store unchanged in both cases); a second
checkOut on the same calendar day after a SUCCESSFUL (200) checkOut always
answers 400 AlreadyCheckedOutToday.  When the first checkOut itself failed
with 500 (the integer hours_worked column rejecting a fractional value),
the record stays un-checked-out, so a repeat does not report
AlreadyCheckedOutToday. -/
theorem checkOut_error_spec (st : Store) (employeeId : String) (now now2 : Millis) :
    (getEmployeeAttendance st employeeId now = none →
      checkOut st employeeId now =
        (st, ⟨400, .obj [("message", .s "No check-in found for today")]⟩)) ∧
    (∀ r, getEmployeeAttendance st employeeId now = some r →
      r.checkOutTime.isSome = true →
      checkOut st employeeId now =
        (st, ⟨400, .obj [("message", .s "Already checked out today")]⟩)) ∧
    (∀ r, getEmployeeAttendance st employeeId now = some r →
      r.checkOutTime = none →
      startOfDay now2 = startOfDay now →
      (checkOut st employeeId now).2.status = 200 →
      (checkOut (checkOut st employeeId now).1 employeeId now2).2 =
        ⟨400, .obj [("message", .s "Already checked out today")]⟩) := by
  refine ⟨?_, ?_, ?_⟩
  · intro hnone
    unfold checkOut
    rw [hnone]
  · intro r hr hsome
    exact checkOut_found_already_out st employeeId now r hr hsome
  · intro r hr hnone hday h200
    by_cases hden : (checkOutHours now r.checkInTime).den = 1
    · have hfirst : (checkOut st employeeId now).1 =
          (updateAttendance st r.id
            { checkOutTime := some (some now),
              hoursWorked := some (some (checkOutHours now r.checkInTime).num) }).1 := by
        simp only [checkOut, hr, hnone, Option.isSome_none, Bool.false_eq_true, if_false]
        rw [if_pos hden]
      have hlook : getEmployeeAttendance (checkOut st employeeId now).1 employeeId now2 =
          some (applyAttendanceUpd
            { checkOutTime := some (some now),
              hoursWorked := some (some (checkOutHours now r.checkInTime).num) } r) := by
        rw [hfirst, getEmployeeAttendance_update _ _ _ rfl rfl,
          getEmployeeAttendance_congr_day _ _ now2 now hday, hr]
        simp
      have hout2 : (applyAttendanceUpd
          { checkOutTime := some (some now),
            hoursWorked := some (some (checkOutHours now r.checkInTime).num) }
          r).checkOutTime.isSome = true := rfl
      rw [checkOut_found_already_out _ _ _ _ hlook hout2]
    · exfalso
      have h500 : (checkOut st employeeId now).2.status = 500 := by
        simp only [checkOut, hr, hnone, Option.isSome_none, Bool.false_eq_true, if_false]
        rw [if_neg hden]
      exact absurd (h500.symm.trans h200) (by decide)

/-- Fixture: a morning check-in at 09:00:00 UTC on day 0, not yet checked
out. -/
def morningAtt : Attendance :=
  { id := "att1", employeeId := "e1", date := 32400000,
    checkInTime := some 32400000, checkOutTime := none,
    hoursWorked := some 0, status := "present", createdAt := 32400000 }

/-- Store holding only the morning check-in. -/
def morningStore : Store := ⟨[], [morningAtt], []⟩

/-- A rational strictly between consecutive integers is not whole. -/
theorem den_ne_one_of_between (q : ℚ) (n : Int)
    (h1 : (n : ℚ) < q) (h2 : q < ((n + 1 : Int) : ℚ)) : q.den ≠ 1 := by
  intro hden
  have hq : ((q.num : Int) : ℚ) = q := (Rat.den_eq_one_iff q).mp hden
  rw [← hq] at h1 h2
  have g1 : n < q.num := by exact_mod_cast h1
  have g2 : q.num < n + 1 := by exact_mod_cast h2
  omega

/-- The rounded value at 09:00:00 → 17:30:00 is 85 tenths. -/
theorem jsRound_0900_1730 :
    jsRound (((63000000 - 32400000 : Int) : ℚ) / (1000 * 60 * 60) * 10) = 85 := by
  unfold jsRound
  rw [Int.floor_eq_iff]
  norm_num

/-- The handler computes 85/10 hours for 09:00:00 → 17:30:00. -/
theorem checkOutHours_0900_1730 :
    checkOutHours 63000000 (some 32400000) = (85 : ℚ) / 10 := by
  show (jsRound (((63000000 - 32400000 : Int) : ℚ) / (1000 * 60 * 60) * 10) : ℚ) / 10 =
    (85 : ℚ) / 10
  rw [jsRound_0900_1730]
  norm_num

/-- At 09:00:00 → 17:30:00 the checkout fails with 500 and writes
nothing: the computed 8.5 is rejected by the integer hours_worked
column. -/
theorem checkOut_morning_1730_fails :
    checkOut morningStore "e1" 63000000 =
      (morningStore, ⟨500, .obj [("message", .s "Internal server error")]⟩) := by
  have hden : ¬ (checkOutHours 63000000 (some 32400000)).den = 1 := by
    rw [checkOutHours_0900_1730]
    exact den_ne_one_of_between _ 8 (by norm_num) (by norm_num)
  have hatt : getEmployeeAttendance morningStore "e1" 63000000 = some morningAtt := rfl
  simp only [checkOut, hatt,
    show morningAtt.checkOutTime = none from rfl,
    Option.isSome_none, Bool.false_eq_true, if_false,
    show morningAtt.checkInTime = some 32400000 from rfl]
  rw [if_neg hden]

/-- Counterexample to claim C5's universal second-checkout clause — with
check-in 09:00:00, a first checkOut at 17:30:00 answers 500 (8.5 rejected
by the integer hours_worked column) and writes nothing, and a second
checkOut at 17:33:00 the same day also answers 500 (8.6 likewise
rejected), not the 400 AlreadyCheckedOutToday response. -/
theorem checkOut_twice_counterexample :
    (checkOut morningStore "e1" 63000000).2.status = 500 ∧
    (checkOut morningStore "e1" 63000000).1 = morningStore ∧
    (checkOut (checkOut morningStore "e1" 63000000).1 "e1" 63180000).2.status = 500 ∧
    (500 : Nat) ≠ 400 := by
  have h1 := checkOut_morning_1730_fails
  have h2 : (checkOut morningStore "e1" 63000000).1 = morningStore := by rw [h1]
  refine ⟨by rw [h1], h2, ?_, by decide⟩
  rw [h2]
  have hden : ¬ (checkOutHours 63180000 (some 32400000)).den = 1 := by
    have hch : checkOutHours 63180000 (some 32400000) = (86 : ℚ) / 10 := by
      show (jsRound (((63180000 - 32400000 : Int) : ℚ) / (1000 * 60 * 60) * 10) : ℚ) / 10 =
        (86 : ℚ) / 10
      have h86 : jsRound (((63180000 - 32400000 : Int) : ℚ) / (1000 * 60 * 60) * 10) = 86 := by
        unfold jsRound
        rw [Int.floor_eq_iff]
        norm_num
      rw [h86]
      norm_num
    rw [hch]
    exact den_ne_one_of_between _ 8 (by norm_num) (by norm_num)
  have hatt : getEmployeeAttendance morningStore "e1" 63180000 = some morningAtt := rfl
  simp only [checkOut, hatt,
    show morningAtt.checkOutTime = none from rfl,
    Option.isSome_none, Bool.false_eq_true, if_false,
    show morningAtt.checkInTime = some 32400000 from rfl]
  rw [if_neg hden]

/-- An 8-hour day (09:00:00 → 17:00:00) rounds to the whole number 8, so
the integer column accepts it and the checkout succeeds. -/
theorem checkOut_morning_1700_status :
    (checkOut morningStore "e1" 61200000).2.status = 200 := by
  have hden : (checkOutHours 61200000 (some 32400000)).den = 1 := by
    have hch : checkOutHours 61200000 (some 32400000) = (80 : ℚ) / 10 := by
      show (jsRound (((61200000 - 32400000 : Int) : ℚ) / (1000 * 60 * 60) * 10) : ℚ) / 10 =
        (80 : ℚ) / 10
      have h80 : jsRound (((61200000 - 32400000 : Int) : ℚ) / (1000 * 60 * 60) * 10) = 80 := by
        unfold jsRound
        rw [Int.floor_eq_iff]
        norm_num
      rw [h80]
      norm_num
    rw [hch, show (80 : ℚ) / 10 = ((8 : Int) : ℚ) from by norm_num]
    exact Rat.den_intCast 8
  have hatt : getEmployeeAttendance morningStore "e1" 61200000 = some morningAtt := rfl
  simp only [checkOut, hatt,
    show morningAtt.checkOutTime = none from rfl,
    Option.isSome_none, Bool.false_eq_true, if_false,
    show morningAtt.checkInTime = some 32400000 from rfl]
  rw [if_pos hden]

/-- Witness for C5 (amended): the no-record failure on an empty store, and
a successful whole-hour checkout (09:00 → 17:00) followed by a same-day
second checkout that fails AlreadyCheckedOutToday. -/
theorem checkOut_error_witness :
    checkOut emptyStore "e1" 1000 =
      (emptyStore, ⟨400, .obj [("message", .s "No check-in found for today")]⟩) ∧
    (checkOut (checkOut morningStore "e1" 61200000).1 "e1" 61260000).2 =
      ⟨400, .obj [("message", .s "Already checked out today")]⟩ :=
  ⟨(checkOut_error_spec emptyStore "e1" 1000 1000).1 rfl,
   (checkOut_error_spec morningStore "e1" 61200000 61260000).2.2 morningAtt rfl rfl
     (by decide) checkOut_morning_1700_status⟩

/-- Claim C6 (code bug) — the handler computes exactly the claimed
one-decimal half-up rounding (8.5 for a 09:00:00 check-in and 17:30:00
check-out), but the `hours_worked` column is declared `integer`, so the
fractional value can never be stored: at that input the UPDATE is rejected
and the checkout answers 500 Internal server error with nothing written,
instead of storing hoursWorked = 8.5. -/
theorem checkOut_hoursWorked_integer_bug :
    checkOutHours 63000000 (some 32400000) =
      roundHalfUpTenths (((63000000 - 32400000 : Int) : ℚ) / (1000 * 60 * 60)) ∧
    roundHalfUpTenths (((63000000 - 32400000 : Int) : ℚ) / (1000 * 60 * 60)) = 8.5 ∧
    (8.5 : ℚ).den ≠ 1 ∧
    checkOut morningStore "e1" 63000000 =
      (morningStore, ⟨500, .obj [("message", .s "Internal server error")]⟩) := by
  refine ⟨rfl, ?_,
    den_ne_one_of_between _ 8 (by norm_num) (by norm_num),
    checkOut_morning_1730_fails⟩
  unfold roundHalfUpTenths
  have hf : (⌊((63000000 - 32400000 : Int) : ℚ) / (1000 * 60 * 60) * 10 + 1 / 2⌋ : Int)
      = 85 := by
    rw [Int.floor_eq_iff]
    norm_num
  rw [hf]
  norm_num

/-- A JSON value contains no object field named `password` at any depth. -/
inductive NoPasswordKey : JVal → Prop where
  | strVal (v : String) : NoPasswordKey (.s v)
  | intVal (v : Int) : NoPasswordKey (.i v)
  | ratVal (v : ℚ) : NoPasswordKey (.q v)
  | boolVal (v : Bool) : NoPasswordKey (.b v)
  | nullVal : NoPasswordKey .null
  | objVal (fs : List (String × JVal))
      (hk : ∀ kv ∈ fs, kv.1 ≠ "password")
      (hv : ∀ kv ∈ fs, NoPasswordKey kv.2) : NoPasswordKey (.obj fs)
  | arrVal (es : List JVal)
      (h : ∀ v ∈ es, NoPasswordKey v) : NoPasswordKey (.arr es)

/-- Objects built through `omitPassword` have no `password` key, provided
their remaining values are clean. -/
theorem noPasswordKey_omit (fl : List (String × JVal))
    (h : ∀ kv ∈ fl, NoPasswordKey kv.2) :
    NoPasswordKey (.obj (omitPassword fl)) := by
  refine NoPasswordKey.objVal _ ?_ ?_
  · intro kv hkv
    have hp := (List.mem_filter.mp hkv).2
    simpa using hp
  · intro kv hkv
    exact h kv (List.mem_filter.mp hkv).1

/-- Every value of a serialized employee row is a leaf. -/
theorem noPasswordKey_employeeFields (e : Employee) :
    ∀ kv ∈ employeeFields e, NoPasswordKey kv.2 := by
  intro kv hkv
  simp only [employeeFields, List.mem_cons, List.not_mem_nil, or_false] at hkv
  rcases hkv with h|h|h|h|h|h|h|h|h|h|h|h <;> (subst h; constructor)

/-- A bare `{message: ...}` body has no password key. -/
theorem noPasswordKey_message (m : String) :
    NoPasswordKey (.obj [("message", .s m)]) := by
  refine NoPasswordKey.objVal _ ?_ ?_
  · intro kv hkv
    simp only [List.mem_singleton] at hkv
    subst hkv
    simp
  · intro kv hkv
    simp only [List.mem_singleton] at hkv
    subst hkv
    constructor

/-- Claim C9 — no response of login, /auth/me, or the employee-management
routes ever carries a `password` field, whatever the stored employee
state. -/
theorem no_password_in_responses
    (st : Store) (cmp : String → String → Bool) (email pw : String)
    (claims : IdentityClaims) (eid : String) (body : EmployeeUpdate)
    (data : InsertEmployee) (now : Millis) (freshId : String) :
    NoPasswordKey (login st cmp email pw).body ∧
    NoPasswordKey (authMe st claims).body ∧
    NoPasswordKey (getEmployeesRoute st).body ∧
    NoPasswordKey (postEmployee st data now freshId).2.body ∧
    NoPasswordKey (putEmployee st eid body now).2.body ∧
    NoPasswordKey (deleteEmployeeRoute st eid).2.body := by
  refine ⟨?_, ?_, ?_, ?_, ?_, ?_⟩
  · unfold login
    cases hm : getEmployeeByEmail st email with
    | none => exact noPasswordKey_message _
    | some e =>
        by_cases hcmp : cmp pw e.password = true
        · simp only [hcmp, if_true]
          refine NoPasswordKey.objVal _ ?_ ?_
          · intro kv hkv
            simp only [List.mem_cons, List.not_mem_nil, or_false] at hkv
            rcases hkv with h|h <;> (subst h; simp)
          · intro kv hkv
            simp only [List.mem_cons, List.not_mem_nil, or_false] at hkv
            rcases hkv with h|h
            · subst h; constructor
            · subst h
              exact noPasswordKey_omit _ (noPasswordKey_employeeFields e)
        · simp only [Bool.not_eq_true] at hcmp
          simp only [hcmp, Bool.false_eq_true, if_false]
          exact noPasswordKey_message _
  · unfold authMe
    cases hm : getEmployee st claims.id with
    | none => exact noPasswordKey_message _
    | some e => exact noPasswordKey_omit _ (noPasswordKey_employeeFields e)
  · unfold getEmployeesRoute
    refine NoPasswordKey.arrVal _ ?_
    intro v hv
    rcases List.mem_map.mp hv with ⟨e, _, rfl⟩
    exact noPasswordKey_omit _ (noPasswordKey_employeeFields e)
  · unfold postEmployee
    exact noPasswordKey_omit _ (noPasswordKey_employeeFields _)
  · unfold putEmployee
    cases hm : (updateEmployee st eid (hashBodyPassword body) now).2 with
    | none =>
        simp only [hm]
        exact noPasswordKey_message _
    | some e =>
        simp only [hm]
        exact noPasswordKey_omit _ (noPasswordKey_employeeFields e)
  · unfold deleteEmployeeRoute
    by_cases hf : st.employees.any (fun e => e.id == eid) = true
    · simp only [hf, if_true]
      exact noPasswordKey_message _
    · simp only [Bool.not_eq_true] at hf
      simp only [hf, Bool.false_eq_true, if_false]
      exact noPasswordKey_message _

/-- A stored employee with a known hash and update timestamp. -/
def baseEmployee : Employee :=
  { id := "e1", email := "a@b.c", password := "bcrypt$old",
    firstName := "A", lastName := "B", department := "D", position := "P",
    role := "employee", leaveBalance := 20, isActive := true,
    createdAt := 0, updatedAt := 5 }

/-- A store with that single employee. -/
def oneEmployeeStore : Store := ⟨[baseEmployee], [], []⟩

/-- Counterexample to claim C10 — two supplied fields are NOT handled as
the claim states: a supplied `updatedAt` of 7 is overwritten with the
server clock (9), and a supplied empty-string password is written verbatim
instead of being hashed (JS truthiness skips `hashPassword` for `""`). -/
theorem putEmployee_verbatim_counterexample :
    ((putEmployee oneEmployeeStore "e1" { updatedAt := some 7 } 9).1.employees.map
        (fun e => e.updatedAt)) = [9] ∧ (9 : Millis) ≠ 7 ∧
    ((putEmployee oneEmployeeStore "e1" { password := some "" } 9).1.employees.map
        (fun e => e.password)) = [""] ∧ hashPassword "" ≠ "" := by
  refine ⟨by decide, by decide, by decide, by decide⟩

/-- Claim C10 (amended) — PUT /api/employees/:id merges the raw request
body into the stored row with no field allow-list or schema validation:
every supplied column other than `password` and `updatedAt` — including
role, leaveBalance, isActive, email, and id — is written verbatim;
`password` is hashed when supplied non-empty (an empty string passes
through verbatim), and `updatedAt` is always overwritten with the server
time. -/
theorem putEmployee_merge_spec
    (st : Store) (id : String) (body : EmployeeUpdate) (now : Millis) (e : Employee)
    (hfind : st.employees.find? (fun x => x.id == id) = some e) :
    (putEmployee st id body now).2.status = 200 ∧
    (putEmployee st id body now).1.employees =
      st.employees.map (fun x => if x.id = id then
        applyEmployeeUpd (hashBodyPassword body) now x else x) ∧
    (∀ v, body.role = some v →
      (applyEmployeeUpd (hashBodyPassword body) now e).role = v) ∧
    (∀ v, body.leaveBalance = some v →
      (applyEmployeeUpd (hashBodyPassword body) now e).leaveBalance = v) ∧
    (∀ v, body.isActive = some v →
      (applyEmployeeUpd (hashBodyPassword body) now e).isActive = v) ∧
    (∀ v, body.email = some v →
      (applyEmployeeUpd (hashBodyPassword body) now e).email = v) ∧
    (∀ v, body.id = some v →
      (applyEmployeeUpd (hashBodyPassword body) now e).id = v) ∧
    (applyEmployeeUpd (hashBodyPassword body) now e).updatedAt = now ∧
    (∀ p, body.password = some p → p ≠ "" →
      (applyEmployeeUpd (hashBodyPassword body) now e).password = hashPassword p) ∧
    (body.password = some "" →
      (applyEmployeeUpd (hashBodyPassword body) now e).password = "") := by
  refine ⟨?_, ?_, ?_, ?_, ?_, ?_, ?_, rfl, ?_, ?_⟩
  · simp [putEmployee, updateEmployee, hfind]
  · simp [putEmployee, updateEmployee, hfind]
  · intro v hv
    unfold hashBodyPassword
    cases hp : body.password with
    | none => simp [applyEmployeeUpd, hv]
    | some p =>
        by_cases he : p = ""
        · simp [he, applyEmployeeUpd, hv]
        · simp [he, applyEmployeeUpd, hv]
  · intro v hv
    unfold hashBodyPassword
    cases hp : body.password with
    | none => simp [applyEmployeeUpd, hv]
    | some p =>
        by_cases he : p = ""
        · simp [he, applyEmployeeUpd, hv]
        · simp [he, applyEmployeeUpd, hv]
  · intro v hv
    unfold hashBodyPassword
    cases hp : body.password with
    | none => simp [applyEmployeeUpd, hv]
    | some p =>
        by_cases he : p = ""
        · simp [he, applyEmployeeUpd, hv]
        · simp [he, applyEmployeeUpd, hv]
  · intro v hv
    unfold hashBodyPassword
    cases hp : body.password with
    | none => simp [applyEmployeeUpd, hv]
    | some p =>
        by_cases he : p = ""
        · simp [he, applyEmployeeUpd, hv]
        · simp [he, applyEmployeeUpd, hv]
  · intro v hv
    unfold hashBodyPassword
    cases hp : body.password with
    | none => simp [applyEmployeeUpd, hv]
    | some p =>
        by_cases he : p = ""
        · simp [he, applyEmployeeUpd, hv]
        · simp [he, applyEmployeeUpd, hv]
  · intro p hp hne
    unfold hashBodyPassword
    rw [hp]
    simp [hne, applyEmployeeUpd]
  · intro hp
    unfold hashBodyPassword
    rw [hp]
    simp [applyEmployeeUpd, hp]

/-- A body supplying id, email, password, role, leaveBalance and isActive. -/
def fullUpdateBody : EmployeeUpdate :=
  { id := some "e9", email := some "n@b.c", password := some "newpw",
    role := some "admin", leaveBalance := some 99, isActive := some false }

/-- Witness for C10 (amended): a concrete body rewrites every supplied
column, with the password hashed and updatedAt set to the clock. -/
theorem putEmployee_merge_witness :
    (putEmployee oneEmployeeStore "e1" fullUpdateBody 9).2.status = 200 ∧
    (applyEmployeeUpd (hashBodyPassword fullUpdateBody) 9 baseEmployee).role = "admin" ∧
    (applyEmployeeUpd (hashBodyPassword fullUpdateBody) 9 baseEmployee).leaveBalance = 99 ∧
    (applyEmployeeUpd (hashBodyPassword fullUpdateBody) 9 baseEmployee).isActive = false ∧
    (applyEmployeeUpd (hashBodyPassword fullUpdateBody) 9 baseEmployee).email = "n@b.c" ∧
    (applyEmployeeUpd (hashBodyPassword fullUpdateBody) 9 baseEmployee).id = "e9" ∧
    (applyEmployeeUpd (hashBodyPassword fullUpdateBody) 9 baseEmployee).updatedAt = 9 ∧
    (applyEmployeeUpd (hashBodyPassword fullUpdateBody) 9 baseEmployee).password =
      hashPassword "newpw" := by
  have h := putEmployee_merge_spec oneEmployeeStore "e1" fullUpdateBody 9 baseEmployee rfl
  exact ⟨h.1, h.2.2.1 _ rfl, h.2.2.2.1 _ rfl, h.2.2.2.2.1 _ rfl, h.2.2.2.2.2.1 _ rfl,
    h.2.2.2.2.2.2.1 _ rfl, h.2.2.2.2.2.2.2.1,
    h.2.2.2.2.2.2.2.2.1 "newpw" rfl (by decide)⟩

end EMS
